import Mathlib

/-!
Verification of the SupportAgent orchestration engine.

Shallow embedding of the Python sources:
  * `AgentOrchestrator.py` — mode dispatch, detect / diagnose phases
  * `AgentTools.py`        — per-phase tool catalogs
  * `DataAccessLayer.py`   — evidence provider wrappers
Python dicts are embedded as association lists of `String × Value`;
datetimes as integers (one unit = one calendar day); async calls as
calls into oracle functions carried by an `Env` record, with an event
trace recording every evidence fetch and model call that is issued.
Helper methods of the orchestrator whose bodies are not part of the
sources (`handle_custom_query`, the prompt builders, the response
parsers, the diagnostic planner and plan executor) are modelled from
the specification; each such definition says so in its doc comment.
-/

namespace SupportAgent

/-- A JSON-like value, embedding the Python dict/list/str/bool/int values
that flow through the orchestrator. -/
inductive Value where
  | vStr : String → Value
  | vBool : Bool → Value
  | vInt : Int → Value
  | vList : List Value → Value
  | vDict : List (String × Value) → Value

/-- A Python dict with string keys. -/
abbrev Dict := List (String × Value)

/-- Key lookup in an embedded dict (first binding wins). -/
def dget : Dict → String → Option Value
  | [], _ => none
  | (k, v) :: rest, key => if k = key then some v else dget rest key

/-- Python `\x7b**a, **b\x7d`: keys of both, with `b` overriding `a` on collision. -/
def dmerge (a b : Dict) : Dict :=
  a.filter (fun p => (dget b p.1).isNone) ++ b

/-- A tool specification handed to the model: name, description and input
schema, as built in `AgentTools.py`. -/
structure ToolSpec where
  name : String
  description : String
  input_schema : Value

/-- Shorthand for the schema fragment of a string-typed property. -/
def strProp : Value := .vDict [("type", .vStr "string")]

/-- `ToolRegistry.get_detection_tools` from `AgentTools.py`: the two tools
available during the issue-detection phase. -/
def get_detection_tools : List ToolSpec :=
  [ { name := "get_error_details",
      description := "Retrieve detailed error messages from logs",
      input_schema := .vDict
        [ ("type", .vStr "object"),
          ("properties", .vDict
            [ ("system", strProp), ("date", strProp),
              ("error_type", strProp) ]) ] },
    { name := "compare_metrics",
      description := "Compare system metrics between two dates",
      input_schema := .vDict
        [ ("type", .vStr "object"),
          ("properties", .vDict
            [ ("system", strProp), ("metric_name", strProp),
              ("date1", strProp), ("date2", strProp) ]) ] } ]

/-- `ToolRegistry.get_diagnosis_tools` from `AgentTools.py`: the two tools
available during the diagnosis phase. -/
def get_diagnosis_tools : List ToolSpec :=
  [ { name := "check_database_consistency",
      description := "Verify data consistency in database tables",
      input_schema := .vDict
        [ ("type", .vStr "object"),
          ("properties", .vDict
            [ ("table", strProp), ("date", strProp) ]) ] },
    { name := "fetch_upstream_data",
      description := "Get data from upstream systems",
      input_schema := .vDict
        [ ("type", .vStr "object"),
          ("properties", .vDict
            [ ("source_system", strProp), ("date", strProp) ]) ] } ]

/-- `AgentMode` from `AgentOrchestrator.py`. -/
inductive AgentMode where
  | issue_detection
  | full_diagnosis
  | custom_query
deriving DecidableEq

/-- `AgentRequest` from `AgentOrchestrator.py`; `date` is an optional
day-number standing for the optional datetime. -/
structure AgentRequest where
  mode : AgentMode
  system : String
  date : Option Int := none
  specific_query : Option String := none

/-- The error taxonomy of spec §7 as surfaced by the engine. -/
inductive AgentError where
  | evidenceUnavailable : String → AgentError
  | invalidRequest : String → AgentError
  | modelUnavailable : String → AgentError
deriving DecidableEq

/-- Confidence levels carried by a diagnosis. -/
inductive Confidence where
  | high
  | medium
  | low
  | unknown
deriving DecidableEq

/-- The shape the response interpreter can recognise in a model answer. -/
inductive ParsedShape where
  | detection (has_issues : Bool) (issues : List Value)
  | diagnosis (root_cause : String) (confidence : Confidence)
      (supporting_evidence : List Value)
  | malformed

/-- A model answer: the raw text plus whatever structure the interpreter
can recognise in it. -/
structure ModelOutput where
  raw : String
  parsed : ParsedShape

/-- Render a confidence level as the string stored in result records. -/
def Confidence.render : Confidence → String
  | .high => "high"
  | .medium => "medium"
  | .low => "low"
  | .unknown => "unknown"

/-- Modelled from the spec: `AgentOrchestrator._parse_detection_response`
is referenced at `AgentOrchestrator.py:75` but its body is not among the
sources.  Spec §4.4: parse the phase-1 model output into a DetectionResult;
on malformed output return a result with `has_issues = false` rather than
raising, keeping the raw output for auditability. -/
def parse_detection (out : ModelOutput) : Dict :=
  match out.parsed with
  | .detection hi issues =>
      [ ("has_issues", .vBool hi),
        ("issues", .vList issues),
        ("raw_model_output", .vStr out.raw) ]
  | _ =>
      [ ("has_issues", .vBool false),
        ("issues", .vList []),
        ("raw_model_output", .vStr out.raw) ]

/-- Modelled from the spec: `AgentOrchestrator._parse_diagnosis_response`
is referenced at `AgentOrchestrator.py:100` but its body is not among the
sources.  Spec §4.4: parse the phase-2 model output into a DiagnosisResult;
on malformed output return a diagnosis carrying confidence `unknown` with
the raw text preserved verbatim, rather than raising. -/
def parse_diagnosis (out : ModelOutput) : Dict :=
  match out.parsed with
  | .diagnosis rc conf ev =>
      [ ("root_cause", .vStr rc),
        ("confidence", .vStr conf.render),
        ("supporting_evidence", .vList ev),
        ("raw_model_output", .vStr out.raw) ]
  | _ =>
      [ ("root_cause", .vStr ""),
        ("confidence", .vStr Confidence.unknown.render),
        ("supporting_evidence", .vList []),
        ("raw_model_output", .vStr out.raw) ]

/-- The record produced by `LogReader.parse_logs`, as consumed by
`DataAccessLayer.get_log_summary` (fields `errors`, `warnings`,
`critical`, `metrics`, `error_samples`). -/
structure ParsedLogs where
  errors : Int
  warnings : Int
  critical : List Value
  metrics : Value
  error_samples : List Value

/-- `DataAccessLayer.get_log_summary`, `DataAccessLayer.py:15`: the
summary dict built from a parsed log record; `sample_errors` keeps only
the first 10 error samples (`parsed_logs['error_samples'][:10]`). -/
def log_summary_of_parsed (p : ParsedLogs) : Dict :=
  [ ("error_count", .vInt p.errors),
    ("warning_count", .vInt p.warnings),
    ("critical_events", .vList p.critical),
    ("performance_metrics", p.metrics),
    ("sample_errors", .vList (p.error_samples.take 10)) ]

/-- The two workflow phases plus the free-form custom-query call. -/
inductive Phase where
  | detect
  | diagnose
  | custom
deriving DecidableEq

/-- An evidence-fetch directive of a DiagnosticPlan (spec §3): either a
database-consistency check on a table for a date, or an upstream-data
fetch for a source system and a date. -/
inductive Directive where
  | tableConsistency (table : String) (date : String)
  | upstreamFetch (source_system : String) (date : String)
deriving DecidableEq

/-- Observable actions issued by the engine, recorded in order. -/
inductive Event where
  | fetchLogSummary (system : String) (date : Int)
  | fetchMetrics (system : String) (date : Int)
  | fetchDirective (d : Directive)
  | planBuilt (plan : List Directive)
  | modelCall (phase : Phase) (prompt : String) (tools : List ToolSpec)

/-- The external collaborators (spec §6), as oracle functions: the log
reader and database behind `DataAccessLayer`, the evidence-provider
operations used by plan directives, the model transport, and the current
time used when a request carries no date. -/
structure Env where
  now : Int
  read_logs : String → Int → Except AgentError ParsedLogs
  db_metrics : String → Int → Except AgentError Dict
  table_consistency : String → String → Except AgentError Dict
  upstream_data : String → String → Except AgentError Dict
  analyze : String → List ToolSpec → Except AgentError ModelOutput

/-- `DataAccessLayer.get_log_summary`, `DataAccessLayer.py:15`: read and
parse the system's log file for the date, then summarize it. -/
def get_log_summary (env : Env) (system : String) (date : Int) :
    Except AgentError Dict :=
  match env.read_logs system date with
  | .ok p => .ok (log_summary_of_parsed p)
  | .error e => .error e

/-- `DataAccessLayer.get_metrics`, `DataAccessLayer.py:30`: run the
metrics query against the database for (system, date). -/
def get_metrics (env : Env) (system : String) (date : Int) :
    Except AgentError Dict :=
  env.db_metrics system date

mutual

/-- Render a value into prompt text (deterministic, covers every field). -/
def renderValue : Value → String
  | .vStr s => s
  | .vBool b => if b then "true" else "false"
  | .vInt i => toString i
  | .vList l => renderList l
  | .vDict d => renderEntries d

/-- Render a list of values into prompt text. -/
def renderList : List Value → String
  | [] => ""
  | [v] => renderValue v
  | v :: rest => renderValue v ++ ", " ++ renderList rest

/-- Render dict entries into prompt text. -/
def renderEntries : List (String × Value) → String
  | [] => ""
  | [(k, v)] => k ++ "=" ++ renderValue v
  | (k, v) :: rest => k ++ "=" ++ renderValue v ++ "; " ++ renderEntries rest

end

/-- Render a dict into prompt text. -/
def renderDict (d : Dict) : String := renderValue (.vDict d)

/-- Modelled from the spec: `AgentOrchestrator._build_detection_prompt`
is referenced at `AgentOrchestrator.py:64` but its body is not among the
sources.  Spec §4.3: a deterministic rendering of all four snapshots,
omitting no field. -/
def build_detection_prompt (log_today log_yesterday
    metrics_today metrics_yesterday : Dict) : String :=
  "Analyze these snapshots for anomalies. Logs today: "
    ++ renderDict log_today
    ++ " Logs yesterday: " ++ renderDict log_yesterday
    ++ " Metrics today: " ++ renderDict metrics_today
    ++ " Metrics yesterday: " ++ renderDict metrics_yesterday

/-- Modelled from the spec: `AgentOrchestrator._build_diagnosis_prompt`
is referenced at `AgentOrchestrator.py:90` but its body is not among the
sources.  Spec §4.3/§4.1: a deterministic rendering of the detected
issues and every directive's evidence outcome (success or explicit
absence). -/
def build_diagnosis_prompt (issues : Dict)
    (diagnostic_data : List (Directive × Dict)) : String :=
  "Perform root cause analysis. Issues: " ++ renderDict issues
    ++ " Evidence: "
    ++ String.intercalate " | " (diagnostic_data.map (fun p => renderDict p.2))

/-- The category string of an issue descriptor, when it carries one. -/
def issueCategory (issue : Value) : Option String :=
  match issue with
  | .vDict d =>
      match dget d "category" with
      | some (.vStr s) => some s
      | _ => none
  | _ => none

/-- A string field of an issue descriptor, defaulting to the empty string. -/
def issueField (issue : Value) (key : String) : String :=
  match issue with
  | .vDict d =>
      match dget d key with
      | some (.vStr s) => s
      | _ => ""
  | _ => ""

/-- Modelled from the spec: `AgentOrchestrator._create_diagnostic_plan`
is referenced at `AgentOrchestrator.py:81` but its body is not among the
sources.  Spec §4.5: a fixed category→directive lookup — a data-volume
mismatch maps to a consistency check on the implicated table for the
implicated date, an upstream discrepancy maps to an upstream-data fetch
for the implicated source system; unknown categories yield no directive. -/
def directives_for_issue (issue : Value) : List Directive :=
  match issueCategory issue with
  | some cat =>
      if cat = "data_volume_mismatch" then
        [.tableConsistency (issueField issue "table") (issueField issue "date")]
      else if cat = "upstream_discrepancy" then
        [.upstreamFetch (issueField issue "source_system")
          (issueField issue "date")]
      else if cat = "error_rate_spike" then
        [.tableConsistency (issueField issue "table") (issueField issue "date")]
      else []
  | none => []

/-- The issue-descriptor list carried by a DetectionResult. -/
def issuesOf (detection : Dict) : List Value :=
  match dget detection "issues" with
  | some (.vList l) => l
  | _ => []

/-- Modelled from the spec: the DiagnosticPlan built by
`_create_diagnostic_plan` — the concatenation, in issue order, of each
issue's directives under the fixed mapping (spec §4.5). -/
def create_diagnostic_plan (detection : Dict) : List Directive :=
  (issuesOf detection).flatMap directives_for_issue

/-- Run one plan directive against the evidence provider. -/
def run_directive (env : Env) (d : Directive) : Except AgentError Dict :=
  match d with
  | .tableConsistency table date => env.table_consistency table date
  | .upstreamFetch source date => env.upstream_data source date

/-- Modelled from the spec: `AgentOrchestrator._execute_diagnostic_plan`
is referenced at `AgentOrchestrator.py:84` but its body is not among the
sources.  Spec §4.1/§7: every directive is executed; a failed directive
degrades to an empty placeholder evidence entry instead of aborting. -/
def execute_diagnostic_plan (env : Env) (plan : List Directive) :
    List Event × List (Directive × Dict) :=
  ( plan.map Event.fetchDirective,
    plan.map (fun d =>
      match run_directive env d with
      | .ok r => (d, r)
      | .error _ => (d, ([] : Dict))) )

/-- `AgentOrchestrator.detect_issues`, `AgentOrchestrator.py:46`: compute
today (the request date, defaulting to now) and yesterday, gather the
four primary evidence fetches, build the detection prompt, call the
model with the detection tools and parse the response.  The event trace
records the four fetches (all issued, as with `asyncio.gather`) and, when
all succeed, the model call. -/
def detect_issues (env : Env) (request : AgentRequest) :
    List Event × Except AgentError Dict :=
  let today := request.date.getD env.now
  let yesterday := today - 1
  let fetches : List Event :=
    [ .fetchLogSummary request.system today,
      .fetchLogSummary request.system yesterday,
      .fetchMetrics request.system today,
      .fetchMetrics request.system yesterday ]
  match get_log_summary env request.system today,
        get_log_summary env request.system yesterday,
        get_metrics env request.system today,
        get_metrics env request.system yesterday with
  | .ok log_today, .ok log_yesterday, .ok metrics_today, .ok metrics_yesterday =>
      let analysis_prompt := build_detection_prompt
        log_today log_yesterday metrics_today metrics_yesterday
      (match env.analyze analysis_prompt get_detection_tools with
       | .ok llm_response =>
           (fetches ++ [.modelCall .detect analysis_prompt get_detection_tools],
            .ok (parse_detection llm_response))
       | .error e =>
           (fetches ++ [.modelCall .detect analysis_prompt get_detection_tools],
            .error e))
  | .error e, _, _, _ => (fetches, .error e)
  | _, .error e, _, _ => (fetches, .error e)
  | _, _, .error e, _ => (fetches, .error e)
  | _, _, _, .error e => (fetches, .error e)

/-- `AgentOrchestrator.diagnose_issues`, `AgentOrchestrator.py:77`: build
the diagnostic plan from the detected issues, execute it, build the
diagnosis prompt from the issues and every directive outcome, call the
model with the diagnosis tools and parse the response. -/
def diagnose_issues (env : Env) (issues : Dict) :
    List Event × Except AgentError Dict :=
  let diagnostic_plan := create_diagnostic_plan issues
  let step := execute_diagnostic_plan env diagnostic_plan
  let diagnosis_prompt := build_diagnosis_prompt issues step.2
  let events := Event.planBuilt diagnostic_plan :: step.1
    ++ [.modelCall .diagnose diagnosis_prompt get_diagnosis_tools]
  match env.analyze diagnosis_prompt get_diagnosis_tools with
  | .ok diagnosis => (events, .ok (parse_diagnosis diagnosis))
  | .error e => (events, .error e)

/-- Modelled from the spec: `AgentOrchestrator.handle_custom_query` is
referenced at `AgentOrchestrator.py:44` but its body is not among the
sources.  Spec §4.1/§7: a request whose query text is absent is rejected
with `InvalidRequest` before any fetch or model call; otherwise a single
free-form model call seeded with the query text and a system-identifying
context, with the combined detection+diagnosis toolset, whose answer text
is returned verbatim wrapped in the result record. -/
def handle_custom_query (env : Env) (request : AgentRequest) :
    List Event × Except AgentError Dict :=
  match request.specific_query with
  | none => ([], .error (.invalidRequest "custom_query requires a query text"))
  | some q =>
      let prompt := "System: " ++ request.system ++ " Query: " ++ q
      let catalog := get_detection_tools ++ get_diagnosis_tools
      match env.analyze prompt catalog with
      | .ok out =>
          ([.modelCall .custom prompt catalog], .ok [("answer", .vStr out.raw)])
      | .error e => ([.modelCall .custom prompt catalog], .error e)

/-- Truthiness of `issues['has_issues']` as branched on at
`AgentOrchestrator.py:38`. -/
def hasIssues (detection : Dict) : Bool :=
  match dget detection "has_issues" with
  | some (.vBool b) => b
  | _ => false

/-- `AgentOrchestrator.execute`, `AgentOrchestrator.py:29`: dispatch on
the request mode; FullDiagnosis runs detection, short-circuits when no
issues were found, and otherwise merges the detection and diagnosis
records with diagnosis keys taking precedence. -/
def execute (env : Env) (request : AgentRequest) :
    List Event × Except AgentError Dict :=
  match request.mode with
  | .issue_detection => detect_issues env request
  | .full_diagnosis =>
      let det := detect_issues env request
      (match det.2 with
       | .ok issues =>
           if hasIssues issues then
             let diag := diagnose_issues env issues
             (match diag.2 with
              | .ok diagnosis => (det.1 ++ diag.1, .ok (dmerge issues diagnosis))
              | .error e => (det.1 ++ diag.1, .error e))
           else det
       | .error e => (det.1, .error e))
  | .custom_query => handle_custom_query env request

/-- The orchestrator's per-instance state: `self.context_memory`,
initialized to the empty dict in `__init__` (`AgentOrchestrator.py:27`). -/
structure OrchestratorState where
  context_memory : Dict

/-- `AgentOrchestrator.__init__`, `AgentOrchestrator.py:23`: the context
memory starts empty. -/
def OrchestratorState.init : OrchestratorState := ⟨[]⟩

/-- `execute` with the orchestrator's mutable state threaded through.  No
statement of `execute`, `detect_issues` or `diagnose_issues`
(`AgentOrchestrator.py:29-100`) mentions `self.context_memory`, and the
spec (§9) records that the helpers absent from the sources never populate
or read it either, so the state passes through unchanged and the result
does not depend on it. -/
def executeS (st : OrchestratorState) (env : Env) (request : AgentRequest) :
    OrchestratorState × (List Event × Except AgentError Dict) :=
  (st, execute env request)

/-- Events belonging to the Diagnose phase: plan construction, directive
fetches, and the phase-2 model call. -/
def isDiagnosisEvent : Event → Bool
  | .planBuilt _ => true
  | .fetchDirective _ => true
  | .modelCall .diagnose _ _ => true
  | _ => false

/-- Events that issue an evidence fetch. -/
def isFetchEvent : Event → Bool
  | .fetchLogSummary _ _ => true
  | .fetchMetrics _ _ => true
  | .fetchDirective _ => true
  | _ => false

/-- Events that issue a model call. -/
def isModelCall : Event → Bool
  | .modelCall _ _ _ => true
  | _ => false

/-- The (phase, tool catalog) pairs of the model calls in a trace. -/
def callsOf : List Event → List (Phase × List ToolSpec)
  | [] => []
  | .modelCall p _ t :: rest => (p, t) :: callsOf rest
  | _ :: rest => callsOf rest

/-- The fixed catalog the engine passes for each phase
(`AgentOrchestrator.py:72` and `:97`; combined set for custom queries
per spec §4.1). -/
def catalog_for : Phase → List ToolSpec
  | .detect => get_detection_tools
  | .diagnose => get_diagnosis_tools
  | .custom => get_detection_tools ++ get_diagnosis_tools

/-- A parsed-log record with no errors and matching metrics. -/
def sampleParsed : ParsedLogs := ⟨0, 0, [], .vDict [], []⟩

/-- An environment whose model reports no anomalies and whose evidence
provider always succeeds. -/
def envNoIssues : Env :=
  { now := 100,
    read_logs := fun _ _ => .ok sampleParsed,
    db_metrics := fun _ _ => .ok [("run_status", .vStr "success")],
    table_consistency := fun _ _ => .ok [],
    upstream_data := fun _ _ => .ok [],
    analyze := fun _ _ => .ok ⟨"no anomalies detected", .detection false []⟩ }

/-- A FullDiagnosis request for the risk-management system. -/
def fullRequest : AgentRequest :=
  { mode := .full_diagnosis, system := "risk_management", date := some 200 }

/-- The DetectionResult `envNoIssues` produces. -/
def detNoIssues : Dict :=
  [ ("has_issues", .vBool false), ("issues", .vList []),
    ("raw_model_output", .vStr "no anomalies detected") ]

/-- An environment whose model answers custom queries with free text. -/
def envCustom : Env :=
  { now := 100,
    read_logs := fun _ _ => .ok sampleParsed,
    db_metrics := fun _ _ => .ok [],
    table_consistency := fun _ _ => .ok [],
    upstream_data := fun _ _ => .ok [],
    analyze := fun _ _ =>
      .ok ⟨"volume dropped due to an upstream outage", .malformed⟩ }

/-- Scenario C's request: a custom query against the pnl system. -/
def customRequest : AgentRequest :=
  { mode := .custom_query, system := "pnl_system",
    specific_query := some "why did volume drop yesterday" }

/-- A custom-query request that carries no query text. -/
def customRequestNoQuery : AgentRequest :=
  { mode := .custom_query, system := "pnl_system" }

/-- An environment whose log backend is unavailable. -/
def envLogsDown : Env :=
  { envNoIssues with
    read_logs := fun _ _ => .error (.evidenceUnavailable "log backend down") }

/-- An environment whose table-consistency checks fail but whose model
still produces a diagnosis. -/
def envDirectiveDown : Env :=
  { now := 100,
    read_logs := fun _ _ => .ok sampleParsed,
    db_metrics := fun _ _ => .ok [],
    table_consistency := fun _ _ => .error (.evidenceUnavailable "db down"),
    upstream_data := fun _ _ => .ok [],
    analyze := fun _ _ =>
      .ok ⟨"root cause: upstream feed gap",
        .diagnosis "upstream feed gap" .high []⟩ }

/-- A DetectionResult reporting one data-volume-mismatch issue. -/
def issuesWithVolumeMismatch : Dict :=
  [ ("has_issues", .vBool true),
    ("issues", .vList [ .vDict
      [ ("category", .vStr "data_volume_mismatch"),
        ("table", .vStr "positions"),
        ("date", .vStr "2024-03-01") ] ]),
    ("raw_model_output", .vStr "issue found") ]

/-- Each model call in a trace uses the fixed catalog of its phase. -/
def callsAligned (l : List Event) : Prop :=
  (callsOf l).map Prod.snd = (callsOf l).map (fun pc => catalog_for pc.1)

/-- The trace of `detect_issues` carries no Diagnose-phase event. -/
theorem detect_issues_no_diag_events (env : Env) (request : AgentRequest) :
    ∀ e ∈ (detect_issues env request).1, isDiagnosisEvent e = false := by
  intro e he
  unfold detect_issues at he
  dsimp only at he
  split at he
  · split at he <;>
      (simp only [List.cons_append, List.nil_append, List.mem_cons,
         List.not_mem_nil, or_false] at he;
       rcases he with h | h | h | h | h <;> subst h <;> rfl)
  all_goals
    (simp only [List.mem_cons, List.not_mem_nil, or_false] at he;
     rcases he with h | h | h | h <;> subst h <;> rfl)

/-- A successful `detect_issues` result is a parsed detection response. -/
theorem detect_issues_ok_shape (env : Env) (request : AgentRequest) (d : Dict)
    (h : (detect_issues env request).2 = .ok d) :
    ∃ out, d = parse_detection out := by
  unfold detect_issues at h
  dsimp only at h
  split at h
  · split at h
    · dsimp only at h
      exact ⟨_, (Except.ok.inj h).symm⟩
    · simp at h
  all_goals simp at h

/-- A parsed detection response never carries diagnosis fields. -/
theorem parse_detection_no_diagnosis_fields (out : ModelOutput) :
    dget (parse_detection out) "root_cause" = none ∧
    dget (parse_detection out) "confidence" = none ∧
    dget (parse_detection out) "supporting_evidence" = none := by
  cases hp : out.parsed <;> simp [parse_detection, hp, dget]

/-- C1: a FullDiagnosis request whose phase-1 detection reports no issues
returns exactly the DetectionResult — no diagnosis fields are present in
it — and the Diagnose phase is never entered: the trace holds no plan
construction, no directive fetch and no phase-2 model call. -/
theorem fullDiagnosis_short_circuits_without_issues
    (env : Env) (request : AgentRequest) (det : Dict)
    (hmode : request.mode = .full_diagnosis)
    (hdet : (detect_issues env request).2 = .ok det)
    (hno : hasIssues det = false) :
    (execute env request).2 = .ok det ∧
    dget det "root_cause" = none ∧
    dget det "confidence" = none ∧
    dget det "supporting_evidence" = none ∧
    ∀ e ∈ (execute env request).1, isDiagnosisEvent e = false := by
  have hex : execute env request = detect_issues env request := by
    unfold execute
    rw [hmode]
    dsimp only
    rw [hdet]
    dsimp only
    rw [hno]
    simp only [Bool.false_eq_true, if_false]
  obtain ⟨out, hdeq⟩ := detect_issues_ok_shape env request det hdet
  subst hdeq
  refine ⟨by rw [hex]; exact hdet,
    (parse_detection_no_diagnosis_fields out).1,
    (parse_detection_no_diagnosis_fields out).2.1,
    (parse_detection_no_diagnosis_fields out).2.2, ?_⟩
  intro e he
  rw [hex] at he
  exact detect_issues_no_diag_events env request e he

/-- Witness for C1 at a concrete environment and request. -/
theorem fullDiagnosis_short_circuits_without_issues_witness :
    fullRequest.mode = .full_diagnosis ∧
    (detect_issues envNoIssues fullRequest).2 = .ok detNoIssues ∧
    hasIssues detNoIssues = false ∧
    (execute envNoIssues fullRequest).2 = .ok detNoIssues :=
  ⟨rfl, rfl, rfl,
    (fullDiagnosis_short_circuits_without_issues envNoIssues fullRequest
      detNoIssues rfl rfl rfl).1⟩

/-- C2: a CustomQuery request with a query text returns the model's
answer text verbatim wrapped in the result record, which carries no
issues or diagnosis fields. -/
theorem custom_query_returns_answer (env : Env) (request : AgentRequest)
    (q : String) (out : ModelOutput)
    (hmode : request.mode = .custom_query)
    (hq : request.specific_query = some q)
    (hok : env.analyze ("System: " ++ request.system ++ " Query: " ++ q)
        (get_detection_tools ++ get_diagnosis_tools) = .ok out) :
    (execute env request).2 = .ok [("answer", .vStr out.raw)] ∧
    dget [("answer", .vStr out.raw)] "answer" = some (.vStr out.raw) ∧
    dget [("answer", .vStr out.raw)] "has_issues" = none ∧
    dget [("answer", .vStr out.raw)] "issues" = none ∧
    dget [("answer", .vStr out.raw)] "root_cause" = none ∧
    dget [("answer", .vStr out.raw)] "confidence" = none := by
  refine ⟨?_, rfl, rfl, rfl, rfl, rfl⟩
  unfold execute handle_custom_query
  rw [hmode]
  dsimp only
  rw [hq]
  dsimp only
  rw [hok]

/-- Witness for C2 at scenario C's concrete request. -/
theorem custom_query_returns_answer_witness :
    customRequest.mode = .custom_query ∧
    customRequest.specific_query = some "why did volume drop yesterday" ∧
    (execute envCustom customRequest).2
      = .ok [("answer", .vStr "volume dropped due to an upstream outage")] :=
  ⟨rfl, rfl,
    (custom_query_returns_answer envCustom customRequest
      "why did volume drop yesterday"
      ⟨"volume dropped due to an upstream outage", .malformed⟩
      rfl rfl rfl).1⟩

/-- C3: a CustomQuery request without a query text is rejected with an
InvalidRequest error, and its trace is empty — no evidence fetch and no
model call is ever issued. -/
theorem custom_query_without_text_rejected (env : Env)
    (request : AgentRequest)
    (hmode : request.mode = .custom_query)
    (hq : request.specific_query = none) :
    (execute env request).2
      = .error (.invalidRequest "custom_query requires a query text") ∧
    (execute env request).1 = [] := by
  unfold execute handle_custom_query
  rw [hmode]
  dsimp only
  rw [hq]
  exact ⟨rfl, rfl⟩

/-- Witness for C3 at a concrete query-less request. -/
theorem custom_query_without_text_rejected_witness :
    customRequestNoQuery.mode = .custom_query ∧
    customRequestNoQuery.specific_query = none ∧
    (execute envCustom customRequestNoQuery).2
      = .error (.invalidRequest "custom_query requires a query text") :=
  ⟨rfl, rfl,
    (custom_query_without_text_rejected envCustom customRequestNoQuery
      rfl rfl).1⟩

/-- C4: if any one of the four primary evidence fetches fails with
EvidenceUnavailable, `detect_issues` fails, its trace holds exactly the
four fetch events and no model call (the prompt is built only together
with the model call, so detection never reaches it), and the request as
a whole fails for the modes that run detection. -/
theorem detect_fails_on_primary_fetch_failure
    (env : Env) (request : AgentRequest) (msg : String)
    (h : get_log_summary env request.system (request.date.getD env.now)
           = .error (.evidenceUnavailable msg)
       ∨ get_log_summary env request.system (request.date.getD env.now - 1)
           = .error (.evidenceUnavailable msg)
       ∨ get_metrics env request.system (request.date.getD env.now)
           = .error (.evidenceUnavailable msg)
       ∨ get_metrics env request.system (request.date.getD env.now - 1)
           = .error (.evidenceUnavailable msg)) :
    (∃ e, (detect_issues env request).2 = .error e) ∧
    (detect_issues env request).1 =
      [ .fetchLogSummary request.system (request.date.getD env.now),
        .fetchLogSummary request.system (request.date.getD env.now - 1),
        .fetchMetrics request.system (request.date.getD env.now),
        .fetchMetrics request.system (request.date.getD env.now - 1) ] ∧
    (request.mode = .issue_detection ∨ request.mode = .full_diagnosis →
      ∃ e, (execute env request).2 = .error e) := by
  have core : (∃ e, (detect_issues env request).2 = .error e) ∧
      (detect_issues env request).1 =
        [ .fetchLogSummary request.system (request.date.getD env.now),
          .fetchLogSummary request.system (request.date.getD env.now - 1),
          .fetchMetrics request.system (request.date.getD env.now),
          .fetchMetrics request.system (request.date.getD env.now - 1) ] := by
    unfold detect_issues
    dsimp only
    rcases hl1 : get_log_summary env request.system (request.date.getD env.now)
        with e1 | l1 <;>
    rcases hl2 : get_log_summary env request.system
        (request.date.getD env.now - 1) with e2 | l2 <;>
    rcases hm1 : get_metrics env request.system (request.date.getD env.now)
        with e3 | m1 <;>
    rcases hm2 : get_metrics env request.system (request.date.getD env.now - 1)
        with e4 | m2 <;>
    first
      | exact ⟨⟨_, rfl⟩, rfl⟩
      | (simp only [hl1, hl2, hm1, hm2] at h; simp at h)
  obtain ⟨⟨e, he⟩, htrace⟩ := core
  refine ⟨⟨e, he⟩, htrace, ?_⟩
  rintro (hmode | hmode) <;>
    (refine ⟨e, ?_⟩; unfold execute; rw [hmode]; dsimp only; rw [he]; try rfl)

/-- Witness for C4: with the log backend down, detection fails and no
model call appears in the trace. -/
theorem detect_fails_on_primary_fetch_failure_witness :
    get_log_summary envLogsDown fullRequest.system
        (fullRequest.date.getD envLogsDown.now)
      = .error (.evidenceUnavailable "log backend down") ∧
    (∃ e, (detect_issues envLogsDown fullRequest).2 = .error e) ∧
    (detect_issues envLogsDown fullRequest).1 =
      [ .fetchLogSummary "risk_management" 200,
        .fetchLogSummary "risk_management" 199,
        .fetchMetrics "risk_management" 200,
        .fetchMetrics "risk_management" 199 ] :=
  ⟨rfl,
    (detect_fails_on_primary_fetch_failure envLogsDown fullRequest
      "log backend down" (Or.inl rfl)).1,
    (detect_fails_on_primary_fetch_failure envLogsDown fullRequest
      "log backend down" (Or.inl rfl)).2.1⟩

/-- C5: a failing plan-directive fetch does not abort diagnosis — the
failed directive contributes an empty placeholder evidence entry, the
diagnosis prompt is still built from all outcomes, and the phase
completes with the parsed DiagnosisResult. -/
theorem diagnose_tolerates_directive_failure
    (env : Env) (issues : Dict) (d : Directive) (err : AgentError)
    (out : ModelOutput)
    (hd : d ∈ create_diagnostic_plan issues)
    (hfail : run_directive env d = .error err)
    (hok : env.analyze
        (build_diagnosis_prompt issues
          (execute_diagnostic_plan env (create_diagnostic_plan issues)).2)
        get_diagnosis_tools = .ok out) :
    (diagnose_issues env issues).2 = .ok (parse_diagnosis out) ∧
    (d, ([] : Dict))
      ∈ (execute_diagnostic_plan env (create_diagnostic_plan issues)).2 := by
  constructor
  · unfold diagnose_issues
    dsimp only
    rw [hok]
  · have hmem := List.mem_map_of_mem
      (fun dir => match run_directive env dir with
        | .ok r => (dir, r)
        | .error _ => (dir, ([] : Dict))) hd
    dsimp only at hmem
    rw [hfail] at hmem
    unfold execute_diagnostic_plan
    dsimp only
    exact hmem

/-- Witness for C5: the consistency-check directive fails, yet the
diagnosis completes and carries the placeholder entry. -/
theorem diagnose_tolerates_directive_failure_witness :
    Directive.tableConsistency "positions" "2024-03-01"
        ∈ create_diagnostic_plan issuesWithVolumeMismatch ∧
    run_directive envDirectiveDown
        (.tableConsistency "positions" "2024-03-01")
      = .error (.evidenceUnavailable "db down") ∧
    (diagnose_issues envDirectiveDown issuesWithVolumeMismatch).2
      = .ok (parse_diagnosis ⟨"root cause: upstream feed gap",
          .diagnosis "upstream feed gap" .high []⟩) :=
  ⟨List.mem_singleton.mpr rfl, rfl,
    (diagnose_tolerates_directive_failure envDirectiveDown
      issuesWithVolumeMismatch (.tableConsistency "positions" "2024-03-01")
      (.evidenceUnavailable "db down")
      ⟨"root cause: upstream feed gap", .diagnosis "upstream feed gap" .high []⟩
      (List.mem_singleton.mpr rfl) rfl rfl).1⟩

/-- C7: the evidence fetches a detection call issues are exactly a log
summary and a metrics snapshot for the request date (defaulting to the
environment's current time) and for the preceding day, in that order,
and nothing else. -/
theorem detect_issues_fetch_trace (env : Env) (request : AgentRequest) :
    (detect_issues env request).1.filter isFetchEvent =
      [ .fetchLogSummary request.system (request.date.getD env.now),
        .fetchLogSummary request.system (request.date.getD env.now - 1),
        .fetchMetrics request.system (request.date.getD env.now),
        .fetchMetrics request.system (request.date.getD env.now - 1) ] := by
  unfold detect_issues
  dsimp only
  split
  · split <;> rfl
  all_goals rfl

/-- C6: the response interpreter is total and fail-soft — every parsed
detection record carries a boolean `has_issues` and the raw output, every
parsed diagnosis record carries a confidence, and on malformed output
detection reports `has_issues = false` while diagnosis reports confidence
`unknown` with the raw text preserved verbatim. -/
theorem parsers_fail_soft (out : ModelOutput) (raw : String) :
    (∃ b, dget (parse_detection out) "has_issues" = some (.vBool b)) ∧
    (∃ c, dget (parse_diagnosis out) "confidence" = some (.vStr c)) ∧
    dget (parse_detection out) "raw_model_output" = some (.vStr out.raw) ∧
    dget (parse_detection ⟨raw, .malformed⟩) "has_issues"
      = some (.vBool false) ∧
    dget (parse_diagnosis ⟨raw, .malformed⟩) "confidence"
      = some (.vStr "unknown") ∧
    dget (parse_diagnosis ⟨raw, .malformed⟩) "raw_model_output"
      = some (.vStr raw) := by
  obtain ⟨r, p⟩ := out
  cases p <;> exact ⟨⟨_, rfl⟩, ⟨_, rfl⟩, rfl, rfl, rfl, rfl⟩

/-- `callsOf` distributes over trace concatenation. -/
theorem callsOf_append (a b : List Event) :
    callsOf (a ++ b) = callsOf a ++ callsOf b := by
  induction a with
  | nil => rfl
  | cons e rest ih => cases e <;> simp [callsOf, ih]

/-- Directive fetches are not model calls. -/
theorem callsOf_fetchDirectives (l : List Directive) :
    callsOf (l.map Event.fetchDirective) = [] := by
  induction l with
  | nil => rfl
  | cons d rest ih => simpa [callsOf] using ih

/-- Alignment is preserved by trace concatenation. -/
theorem callsAligned_append (a b : List Event)
    (ha : callsAligned a) (hb : callsAligned b) : callsAligned (a ++ b) := by
  unfold callsAligned at ha hb ⊢
  rw [callsOf_append, List.map_append, List.map_append, ha, hb]

/-- Every model call in a detection trace carries the detection catalog. -/
theorem detect_calls_aligned (env : Env) (request : AgentRequest) :
    callsAligned (detect_issues env request).1 := by
  unfold detect_issues callsAligned
  dsimp only
  split
  · split <;> rfl
  all_goals rfl

/-- Every model call in a diagnosis trace carries the diagnosis catalog. -/
theorem diagnose_calls_aligned (env : Env) (issues : Dict) :
    callsAligned (diagnose_issues env issues).1 := by
  unfold diagnose_issues callsAligned
  dsimp only
  split <;>
    (unfold execute_diagnostic_plan;
     dsimp only;
     simp [callsOf, callsOf_append, callsOf_fetchDirectives, catalog_for])

/-- Every model call in a custom-query trace carries the combined
catalog. -/
theorem custom_calls_aligned (env : Env) (request : AgentRequest) :
    callsAligned (handle_custom_query env request).1 := by
  unfold handle_custom_query callsAligned
  dsimp only
  split
  · rfl
  · split <;> rfl

/-- C8: the model only ever receives the fixed catalog of the current
phase — every model call issued by `execute` carries exactly the catalog
keyed by its phase, the detection catalog is exactly
get_error_details/compare_metrics, the diagnosis catalog exactly
check_database_consistency/fetch_upstream_data, and the two share no
operation. -/
theorem model_calls_use_phase_catalog (env : Env) (request : AgentRequest) :
    (callsOf (execute env request).1).map Prod.snd
      = (callsOf (execute env request).1).map (fun pc => catalog_for pc.1) ∧
    get_detection_tools.map ToolSpec.name
      = ["get_error_details", "compare_metrics"] ∧
    get_diagnosis_tools.map ToolSpec.name
      = ["check_database_consistency", "fetch_upstream_data"] ∧
    (get_detection_tools.map ToolSpec.name).inter
        (get_diagnosis_tools.map ToolSpec.name) = [] := by
  refine ⟨?_, rfl, rfl, by decide⟩
  show callsAligned (execute env request).1
  unfold execute
  cases request.mode
  · exact detect_calls_aligned env request
  · dsimp only
    split
    · split
      · split <;>
          exact callsAligned_append _ _ (detect_calls_aligned env request)
            (diagnose_calls_aligned env _)
      · exact detect_calls_aligned env request
    · exact detect_calls_aligned env request
  · exact custom_calls_aligned env request

/-- C9: for every parsed-log input, the log-summary fragment built by
`get_log_summary` carries a `sample_errors` sequence that is the
truncation of the error samples to at most 10 entries. -/
theorem log_summary_bounds_sample_errors (p : ParsedLogs) :
    dget (log_summary_of_parsed p) "sample_errors"
      = some (.vList (p.error_samples.take 10)) ∧
    (p.error_samples.take 10).length ≤ 10 := by
  refine ⟨rfl, ?_⟩
  rw [List.length_take]
  exact min_le_left _ _

/-- C10: `execute` and everything it invokes neither reads nor writes the
orchestrator's context memory — threading the state through leaves it
unchanged (it stays the empty mapping `__init__` created), and the trace
and result are independent of its contents. -/
theorem context_memory_never_touched (st st' : OrchestratorState)
    (env : Env) (request : AgentRequest) :
    (executeS st env request).1 = st ∧
    OrchestratorState.init.context_memory = [] ∧
    (executeS st env request).2 = (executeS st' env request).2 :=
  ⟨rfl, rfl, rfl⟩

end SupportAgent
